import Mathlib

/-!
Shallow embedding of `src/script.js` (a client-side photo gallery persisting
image blobs in IndexedDB) for verification of its specification.

The Local Image Store (script.js lines 5-67) is modelled as a pure state
`GalleryDB` holding the auto-increment key generator (`nextId`, IndexedDB key
generators start at 1) and the list of persisted records in key order, which
is what `IDBObjectStore.getAll` returns.  Blobs are byte lists, timestamps
(`Date.now()`) are naturals supplied explicitly at each insert.  The record
field `name` is `Option String`: `none` models an absent/null name, matching
the JS falsy check `item.name || fallback` in `refreshGallery`.

The Gallery Controller (lines 69-169) is modelled by pure functions producing
the rendered markup strings and, where a claim is about which store operations
get invoked, by an explicit log of initiated store calls.
-/

/-- A persisted image record: `{ id, name, blob, created }` (script.js line 32,
with `id` auto-assigned by the object store's key generator, line 17). -/
structure ImageRecord where
  id : Nat
  name : Option String
  blob : List Nat
  created : Nat
deriving DecidableEq, Repr

/-- The state of the `galleryDB` database's single `images` object store:
the key generator's next value and the records in ascending key order. -/
structure GalleryDB where
  nextId : Nat
  records : List ImageRecord
deriving DecidableEq, Repr

/-- A freshly created `images` object store (line 17): no records, and the
IndexedDB auto-increment key generator starts at 1. -/
def emptyDB : GalleryDB := { nextId := 1, records := [] }

/-- `openDB` (lines 11-26): `indexedDB.open(DB_NAME, DB_VERSION)`.  The
environment either has no `galleryDB` database yet (`none`) — then
`onupgradeneeded` creates the `images` store with an auto-increment key —
or already has it (`some d`) — then the existing database is returned
unchanged (the store already exists, line 16's guard). -/
def openDB : Option GalleryDB → GalleryDB
  | none => emptyDB
  | some d => d

/-- `addImageBlob(name, blob)` (lines 28-37): `store.add` assigns the next
auto-increment key as `id`, appends the record, and resolves with the new
key (`req.result`).  `created` is `Date.now()`, passed here as `now`. -/
def addImageBlob (d : GalleryDB) (name : String) (blob : List Nat) (now : Nat) :
    GalleryDB × Nat :=
  ({ nextId := d.nextId + 1,
     records := d.records ++ [{ id := d.nextId, name := some name, blob := blob,
                                created := now }] },
   d.nextId)

/-- `getAllImages` (lines 39-47): `store.getAll()` resolves with every record,
in ascending key order. -/
def getAllImages (d : GalleryDB) : List ImageRecord :=
  d.records

/-- `deleteImageById(id)` (lines 49-57): `store.delete(id)` removes the record
with that key if present and succeeds silently otherwise. -/
def deleteImageById (d : GalleryDB) (i : Nat) : GalleryDB :=
  { d with records := d.records.filter (fun r => r.id != i) }

/-- `clearAllImages` (lines 59-67): `store.clear()` removes every record.
The key generator is not reset by `clear`. -/
def clearAllImages (d : GalleryDB) : GalleryDB :=
  { d with records := [] }

/-- A sequence of successful inserts: each triple is the `name`, `blob` and
`Date.now()` value of one `addImageBlob` call. -/
def insertAll (d : GalleryDB) : List (String × List Nat × Nat) → GalleryDB
  | [] => d
  | (n, b, t) :: rest => insertAll (addImageBlob d n b t).1 rest

/-- The records a sequence of inserts produces when the key generator's next
value is `k`: ids `k, k+1, ...` paired with the given fields. -/
def expectedRecords (k : Nat) : List (String × List Nat × Nat) → List ImageRecord
  | [] => []
  | (n, b, t) :: rest =>
      { id := k, name := some n, blob := b, created := t } :: expectedRecords (k + 1) rest

/-- The non-identity fields of a record, for comparing store contents with
the inputs of the inserts that produced them. -/
def recFields (r : ImageRecord) : Option String × List Nat × Nat :=
  (r.name, r.blob, r.created)

/-- `escapeHtml` (lines 150-152) on a single character: `&`, `<`, `>`, `"`
(code 34) and the apostrophe (code 39) are replaced by their HTML entities,
every other character is kept. -/
def escapeCharList (c : Char) : List Char :=
  if c = '&' then "&amp;".data
  else if c = '<' then "&lt;".data
  else if c = '>' then "&gt;".data
  else if c.toNat = 34 then "&quot;".data
  else if c.toNat = 39 then "&#39;".data
  else [c]

/-- `escapeHtml` on a character list: `String.replace` with the char-class
regex substitutes each occurrence independently. -/
def escapeList : List Char → List Char
  | [] => []
  | c :: cs => escapeCharList c ++ escapeList cs

/-- `escapeHtml(s)` (lines 150-152). -/
def escapeHtml (s : String) : String :=
  String.mk (escapeList s.data)

/-- A character that lets user text break out of the surrounding markup:
tag delimiters and the two attribute-value quote characters
(`"` is code 34, the apostrophe is code 39). -/
def isMarkupDelim (c : Char) : Bool :=
  c == '<' || c == '>' || c.toNat == 34 || c.toNat == 39

/-- JavaScript `x || fallback` on a string-or-missing value: absent/null
(`none`) and the empty string are falsy and select the fallback. -/
def jsOrElse (x : Option String) (fallback : String) : String :=
  match x with
  | none => fallback
  | some s => if s = "" then fallback else s

/-- The `alt` attribute text of a gallery card:
`escapeHtml(item.name || 'photo')` (line 130). -/
def altText (item : ImageRecord) : String :=
  escapeHtml (jsOrElse item.name "photo")

/-- The caption of a gallery card:
`escapeHtml(item.name || 'Untitled')` (line 132). -/
def captionText (item : ImageRecord) : String :=
  escapeHtml (jsOrElse item.name "Untitled")

/-- The inner markup of one gallery card (the template literal, lines
129-137); `imgURL` is the temporary object URL derived from the blob. -/
def renderCard (imgURL : String) (item : ImageRecord) : String :=
  "\n      <a href=\"" ++ imgURL ++
    "\" target=\"_blank\" rel=\"noopener noreferrer\"><img alt=\"" ++
    altText item ++ "\" src=\"" ++ imgURL ++
    "\"></a>\n      <div class=\"meta\">\n        <div class=\"meta-left\">" ++
    captionText item ++
    "</div>\n        <div class=\"meta-right\">\n          <button class=\"btn ghost\" data-id=\"" ++
    toString item.id ++
    "\">Delete</button>\n        </div>\n      </div>\n    "

/-- The comparator of `items.sort((a,b) => b.created - a.created)` (line 119):
`a` precedes `b` when the comparator is negative or zero, i.e. when
`b.created ≤ a.created` — newest first. -/
def createdDesc (a b : ImageRecord) : Prop :=
  b.created ≤ a.created

instance : DecidableRel createdDesc :=
  fun a b => Nat.decLe b.created a.created

instance : IsTotal ImageRecord createdDesc :=
  ⟨fun a b => Nat.le_total b.created a.created⟩

instance : IsTrans ImageRecord createdDesc :=
  ⟨fun _ _ _ h1 h2 => Nat.le_trans h2 h1⟩

/-- The in-place sort of line 119, modelled as a sort consistent with the
comparator (JavaScript `Array.prototype.sort` guarantees exactly a sorted
permutation; stability is not relied on here). -/
def sortNewestFirst (items : List ImageRecord) : List ImageRecord :=
  List.insertionSort createdDesc items

/-- The records `refreshGallery` (lines 116-148) renders, in rendering order:
the result of `getAllImages`, sorted newest-first. -/
def galleryItemsInOrder (d : GalleryDB) : List ImageRecord :=
  sortNewestFirst (getAllImages d)

/-- The empty-state placeholder (line 122). -/
def emptyGalleryMsg : String :=
  "<p class=\"muted small\">No photos yet — add some above.</p>"

/-- The final `galleryGrid` markup produced by `refreshGallery`: the
placeholder when there are no records, otherwise the cards in sorted order
(`urlOf` models `URL.createObjectURL` on each record's blob). -/
def refreshGalleryHTML (d : GalleryDB) (urlOf : ImageRecord → String) : String :=
  let items := galleryItemsInOrder d
  if items.isEmpty then emptyGalleryMsg
  else String.join (items.map (fun it => renderCard (urlOf it) it))

/-- A file-like object as seen by `handleFiles`: its `name` and its declared
content type (`file.type`). -/
structure JSFile where
  name : String
  mime : String
deriving DecidableEq, Repr

/-- One call into the Local Image Store. -/
inductive StoreCall where
  | insert (name : String)
  | listAll
  | deleteById (i : Nat)
  | clearAll
deriving DecidableEq, Repr

/-- The content-type test of line 94, `file.type.startsWith('image/')`,
expressed on the character list. -/
def isImageMime (m : String) : Bool :=
  "image/".data.isPrefixOf m.data

/-- The store calls `handleFiles(files)` (lines 91-114) initiates
synchronously: non-image files are skipped (line 94), and for every image
file `addImageBlob` is called unconditionally (line 108) — nothing in
`handleFiles` consults whether `openDB` ever succeeded. -/
def handleFilesStoreCalls (files : List JSFile) : List StoreCall :=
  (files.filter (fun f => isImageMime f.mime)).map
    (fun f => StoreCall.insert f.name)

/-- The store calls the `init` IIFE (lines 161-169) makes after `openDB`
settles: on success it runs `refreshGallery` (one `getAllImages`), on
failure it only renders the error message and makes no store call. -/
def initStoreCallsAfterOpen (openOk : Bool) : List StoreCall :=
  if openOk then [StoreCall.listAll] else []

/-- The message rendered into `galleryGrid` when `openDB` rejects
(line 167). -/
def storageUnavailableMsg : String :=
  "<p class=\"muted\">Browser storage is not available in this environment.</p>"

/-- What `init` leaves in `galleryGrid` on `openDB` failure (line 167);
on success the grid is whatever `refreshGallery` renders. -/
def initFailureHTML : String :=
  storageUnavailableMsg

/-- A later user action in the session.  The drop/file-input listeners
(lines 81-89) and the clear-all button listener (lines 154-158) are attached
at module load, independently of `init`'s outcome. -/
inductive UIEvent where
  | dropFiles (files : List JSFile)
  | clickClearAll (confirmed : Bool)
deriving DecidableEq, Repr

/-- The store calls a user event initiates: dropping files runs
`handleFiles`; the clear-all button, once confirmed, calls
`clearAllImages` (line 156).  (Follow-up `refreshGallery` calls happen only
after the mutation succeeds and are not part of the initiated-call log.) -/
def eventStoreCalls : UIEvent → List StoreCall
  | UIEvent.dropFiles files => handleFilesStoreCalls files
  | UIEvent.clickClearAll confirmed => if confirmed then [StoreCall.clearAll] else []

/-- Every store call initiated during a session: those of `init` (with the
given `openDB` outcome) followed by those of each later user event.  No
handler is disabled when `openDB` failed. -/
def sessionStoreCalls (openOk : Bool) (events : List UIEvent) : List StoreCall :=
  initStoreCallsAfterOpen openOk ++ (events.map eventStoreCalls).flatten

/-- One file of a dropped batch: name, bytes, `Date.now()` at its insert, and
whether its `addImageBlob` transaction succeeds. -/
structure BatchFile where
  bname : String
  bblob : List Nat
  btime : Nat
  insertOk : Bool
deriving DecidableEq, Repr

/-- The store state after `handleFiles` processes a batch (lines 93-111):
each file's insert is an independent promise chain with its own `.catch`
(line 110), so a failed insert leaves the store unchanged (the single-record
transaction aborts atomically) and the remaining files are still
processed. -/
def processBatch (d : GalleryDB) : List BatchFile → GalleryDB
  | [] => d
  | f :: rest =>
      if f.insertOk then processBatch (addImageBlob d f.bname f.bblob f.btime).1 rest
      else processBatch d rest

/-- One store operation of a session, for stating store invariants.  An
insert carries the `Date.now()` value observed at line 32. -/
inductive StoreOp where
  | insert (n : String) (b : List Nat) (t : Nat)
  | deleteById (i : Nat)
  | clearAll
deriving DecidableEq, Repr

/-- Run a sequence of store operations. -/
def runOps (d : GalleryDB) : List StoreOp → GalleryDB
  | [] => d
  | StoreOp.insert n b t :: rest => runOps (addImageBlob d n b t).1 rest
  | StoreOp.deleteById i :: rest => runOps (deleteImageById d i) rest
  | StoreOp.clearAll :: rest => runOps (clearAllImages d) rest

/-- `Date.now()` is non-decreasing within a session: the timestamps carried
by the inserts of the operation list, read left to right, never decrease
(starting from a lower bound `t`). -/
def validTimes : Nat → List StoreOp → Bool
  | _, [] => true
  | t, StoreOp.insert _ _ t2 :: rest => decide (t ≤ t2) && validTimes t2 rest
  | t, StoreOp.deleteById _ :: rest => validTimes t rest
  | t, StoreOp.clearAll :: rest => validTimes t rest

/-- The store invariant, relative to the clock's current lower bound `t`:
record ids strictly increase along the key order, `created` values are
non-decreasing along it, every id is below the key generator's next value,
and every `created` is at most `t`. -/
def StoreInv (d : GalleryDB) (t : Nat) : Prop :=
  (d.records.map (fun r => r.id)).Pairwise (· < ·) ∧
  (d.records.map (fun r => r.created)).Pairwise (· ≤ ·) ∧
  ∀ r ∈ d.records, r.id < d.nextId ∧ r.created ≤ t

/-! Concrete sample inputs used by witnesses and instance checks. -/

/-- A sample store with two records, for exercising `deleteImageById`. -/
def demoDB : GalleryDB :=
  { nextId := 3,
    records := [{ id := 1, name := some "a.png", blob := [10], created := 100 },
                { id := 2, name := some "b.png", blob := [20], created := 200 }] }

/-- A sample record whose `name` field is absent. -/
def demoFalsy : ImageRecord :=
  { id := 1, name := none, blob := [], created := 0 }

/-- A sample dropped image file. -/
def demoImageFile : JSFile :=
  { name := "a.png", mime := "image/png" }

/-- The three-file batch of the spec's batch scenario: file #2's insert
fails, files #1 and #3 succeed. -/
def demoBatch : List BatchFile :=
  [{ bname := "one.png", bblob := [1], btime := 10, insertOk := true },
   { bname := "two.png", bblob := [2], btime := 20, insertOk := false },
   { bname := "three.png", bblob := [3], btime := 30, insertOk := true }]

/-- A sample operation sequence with non-decreasing insert timestamps. -/
def demoOps : List StoreOp :=
  [StoreOp.insert "a.png" [1] 5, StoreOp.deleteById 1,
   StoreOp.insert "b.png" [2] 7, StoreOp.clearAll,
   StoreOp.insert "c.png" [3] 9, StoreOp.insert "d.png" [4] 9]

/-! ### Helper lemmas about the store operations -/

theorem insertAll_records (ops : List (String × List Nat × Nat)) :
    ∀ d : GalleryDB, (insertAll d ops).records = d.records ++ expectedRecords d.nextId ops := by
  induction ops with
  | nil => intro d; simp [insertAll, expectedRecords]
  | cons p rest ih =>
      intro d
      obtain ⟨n, b, t⟩ := p
      rw [insertAll, expectedRecords, ih]
      simp [addImageBlob]

theorem expectedRecords_map_recFields (ops : List (String × List Nat × Nat)) :
    ∀ k : Nat, (expectedRecords k ops).map recFields
      = ops.map (fun p => (some p.1, p.2.1, p.2.2)) := by
  induction ops with
  | nil => intro k; rfl
  | cons p rest ih =>
      intro k
      obtain ⟨n, b, t⟩ := p
      simp [expectedRecords, recFields, ih]

theorem expectedRecords_map_id (ops : List (String × List Nat × Nat)) :
    ∀ k : Nat, (expectedRecords k ops).map (fun r => r.id) = List.range' k ops.length := by
  induction ops with
  | nil => intro k; rfl
  | cons p rest ih =>
      intro k
      obtain ⟨n, b, t⟩ := p
      simp [expectedRecords, List.range', ih]

/-! ### Claim theorems -/

/-- Claim C1: starting from the empty store, any sequence of successful
inserts followed by `listAll` returns exactly the inserted records (same
`name`, `blob`, `created`, in order) and the returned ids are pairwise
distinct. -/
theorem C1_inserts_exact_listAll (ops : List (String × List Nat × Nat)) :
    (getAllImages (insertAll emptyDB ops)).map recFields
        = ops.map (fun p => (some p.1, p.2.1, p.2.2)) ∧
    ((getAllImages (insertAll emptyDB ops)).map (fun r => r.id)).Nodup := by
  constructor
  · rw [getAllImages, insertAll_records]
    simp [emptyDB, expectedRecords_map_recFields]
  · rw [getAllImages, insertAll_records]
    simp [emptyDB, expectedRecords_map_id, List.nodup_range']

/-- Claim C2: `deleteById` keeps exactly the records whose id differs from
the argument (all fields untouched, key order preserved), and is a silent
no-op when no record carries that id. -/
theorem C2_deleteById_frame (d : GalleryDB) (i : Nat) :
    (∀ r : ImageRecord,
        r ∈ getAllImages (deleteImageById d i) ↔ r ∈ getAllImages d ∧ r.id ≠ i) ∧
    (getAllImages (deleteImageById d i)).Sublist (getAllImages d) ∧
    ((getAllImages d).all (fun r => r.id != i) = true → deleteImageById d i = d) := by
  refine ⟨?_, ?_, ?_⟩
  · intro r
    simp [getAllImages, deleteImageById, List.mem_filter]
  · simp only [getAllImages, deleteImageById]
    exact List.filter_sublist d.records
  · intro h
    have hf : d.records.filter (fun r => r.id != i) = d.records :=
      List.filter_eq_self.mpr (by simpa [getAllImages, List.all_eq_true] using h)
    simp [deleteImageById, hf]

/-- Witness for C2 at a concrete store and a non-existent id. -/
theorem C2_deleteById_frame_witness :
    ((getAllImages demoDB).all (fun r => r.id != 5) = true) ∧
    deleteImageById demoDB 5 = demoDB :=
  ⟨by decide, (C2_deleteById_frame demoDB 5).2.2 (by decide)⟩

/-- Claim C5: `openDB` is idempotent — opening when the database already
exists returns the existing handle unchanged, so a second open creates
nothing and duplicates no record. -/
theorem C5_openDB_idempotent :
    (∀ d : GalleryDB, openDB (some d) = d) ∧
    (∀ e : Option GalleryDB, openDB (some (openDB e)) = openDB e) ∧
    (∀ e : Option GalleryDB,
        getAllImages (openDB (some (openDB e))) = getAllImages (openDB e)) :=
  ⟨fun _ => rfl, fun _ => rfl, fun _ => rfl⟩

/-- Claim C8: `clearAll` followed by `listAll` yields the empty sequence,
and `listAll` on an empty collection returns `[]` rather than an error. -/
theorem C8_clearAll_then_empty (d : GalleryDB) :
    getAllImages (clearAllImages d) = [] ∧ getAllImages emptyDB = [] :=
  ⟨rfl, rfl⟩

theorem escapeCharList_safe (c : Char) :
    (escapeCharList c).all (fun x => !isMarkupDelim x) = true := by
  unfold escapeCharList
  repeat' split
  · decide
  · decide
  · decide
  · decide
  · decide
  · rename_i h1 h2 h3 h4 h5
    simp [isMarkupDelim, h2, h3, h4, h5]

theorem escapeList_safe (l : List Char) :
    (escapeList l).all (fun x => !isMarkupDelim x) = true := by
  induction l with
  | nil => rfl
  | cons c cs ih => simp [escapeList, List.all_append, escapeCharList_safe c, ih]

/-- Claim C3: `refreshGallery` renders the records of `listAll` sorted by
`created` descending (a sorted permutation of the store contents), and on a
store whose records carry `created` values 100, 300, 200 the rendering order
is 300, 200, 100. -/
theorem C3_refresh_sorted_desc :
    (∀ d : GalleryDB,
        (galleryItemsInOrder d).Sorted createdDesc ∧
        (galleryItemsInOrder d).Perm (getAllImages d)) ∧
    (galleryItemsInOrder
        (insertAll emptyDB [("a.png", [], 100), ("b.png", [], 300), ("c.png", [], 200)])).map
      (fun r => r.created) = [300, 200, 100] := by
  constructor
  · intro d
    constructor
    · exact List.sorted_insertionSort createdDesc (getAllImages d)
    · exact List.perm_insertionSort createdDesc (getAllImages d)
  · decide

/-- Claim C4: every character `escapeHtml` emits is markup-inert (no `<`,
`>`, `"` or apostrophe survives), `<script>` escapes to `&lt;script&gt;`,
and both pieces of user text in a gallery card pass through `escapeHtml`,
so a record named `<script>` is rendered only as escaped text. -/
theorem C4_filename_escaped :
    (∀ s : String, ((escapeHtml s).data.all (fun c => !isMarkupDelim c)) = true) ∧
    escapeHtml "<script>" = "&lt;script&gt;" ∧
    altText { id := 1, name := some "<script>", blob := [], created := 0 }
      = "&lt;script&gt;" ∧
    captionText { id := 1, name := some "<script>", blob := [], created := 0 }
      = "&lt;script&gt;" := by
  refine ⟨?_, by decide, by decide, by decide⟩
  intro s
  exact escapeList_safe s.data

/-- Claim C10: a record whose `name` is absent or empty is rendered with
alt text `photo` and caption `Untitled`. -/
theorem C10_fallback_texts (item : ImageRecord)
    (h : item.name = none ∨ item.name = some "") :
    altText item = "photo" ∧ captionText item = "Untitled" := by
  have ha : jsOrElse item.name "photo" = "photo" := by
    rcases h with h | h <;> simp [jsOrElse, h]
  have hc : jsOrElse item.name "Untitled" = "Untitled" := by
    rcases h with h | h <;> simp [jsOrElse, h]
  unfold altText captionText
  rw [ha, hc]
  exact ⟨by decide, by decide⟩

/-- Witness for C10 at a concrete record with an absent name. -/
theorem C10_fallback_texts_witness :
    altText demoFalsy = "photo" ∧ captionText demoFalsy = "Untitled" :=
  C10_fallback_texts demoFalsy (Or.inl rfl)

/-- Counterexample to claim C6 as stated: after a failed `openDB` the
failure message is rendered, yet a later drop of an image file still
initiates an insert store call — the session does not stop calling the
store. -/
theorem C6_counterexample_insert_after_failed_open :
    initFailureHTML = storageUnavailableMsg ∧
    sessionStoreCalls false [UIEvent.dropFiles [demoImageFile]]
      = [StoreCall.insert "a.png"] ∧
    sessionStoreCalls false [UIEvent.dropFiles [demoImageFile]] ≠ [] := by
  refine ⟨rfl, by decide, by decide⟩

/-- Claim C6 as amended: on `openDB` failure the controller renders the
storage-unavailable message and `init` itself makes no further store call,
but the drop and clear-all handlers stay active, so a later file drop still
initiates the insert calls for its image files. -/
theorem C6_init_failure_renders_message :
    initFailureHTML = storageUnavailableMsg ∧
    sessionStoreCalls false [] = [] ∧
    (∀ (files : List JSFile) (events : List UIEvent),
        sessionStoreCalls false (UIEvent.dropFiles files :: events)
          = handleFilesStoreCalls files ++ sessionStoreCalls false events) := by
  refine ⟨rfl, rfl, ?_⟩
  intro files events
  simp [sessionStoreCalls, initStoreCallsAfterOpen, eventStoreCalls]

theorem processBatch_eq_insertAll (files : List BatchFile) :
    ∀ d : GalleryDB,
      processBatch d files
        = insertAll d ((files.filter (fun f => f.insertOk)).map
            (fun f => (f.bname, f.bblob, f.btime))) := by
  induction files with
  | nil => intro d; rfl
  | cons f rest ih =>
      intro d
      cases hf : f.insertOk with
      | true => simp [processBatch, hf, List.filter_cons, insertAll, ih]
      | false => simp [processBatch, hf, List.filter_cons, ih]

/-- Claim C7: within a dropped batch each insert is isolated — the final
store holds exactly the successful files' records — and in the spec's
three-file scenario (file #2 fails) the store and the rendered gallery
contain exactly files #1 and #3. -/
theorem C7_batch_isolation :
    (∀ files : List BatchFile,
        (getAllImages (processBatch emptyDB files)).map recFields
          = (files.filter (fun f => f.insertOk)).map
              (fun f => (some f.bname, f.bblob, f.btime))) ∧
    (getAllImages (processBatch emptyDB demoBatch)).map (fun r => r.name)
      = [some "one.png", some "three.png"] ∧
    (galleryItemsInOrder (processBatch emptyDB demoBatch)).map (fun r => r.name)
      = [some "three.png", some "one.png"] := by
  refine ⟨?_, by decide, by decide⟩
  intro files
  rw [processBatch_eq_insertAll, getAllImages, insertAll_records]
  simp [emptyDB, expectedRecords_map_recFields, List.map_map, Function.comp]

theorem storeInv_empty (t : Nat) : StoreInv emptyDB t := by
  refine ⟨?_, ?_, ?_⟩
  · simp [emptyDB]
  · simp [emptyDB]
  · intro r hr
    simp [emptyDB] at hr

theorem storeInv_insert {d : GalleryDB} {t : Nat} (h : StoreInv d t) {t2 : Nat}
    (ht : t ≤ t2) (n : String) (b : List Nat) :
    StoreInv (addImageBlob d n b t2).1 t2 := by
  obtain ⟨hid, hcr, hb⟩ := h
  refine ⟨?_, ?_, ?_⟩
  · simp only [addImageBlob, List.map_append, List.map_cons, List.map_nil]
    rw [List.pairwise_append]
    refine ⟨hid, by simp, ?_⟩
    intro x hx y hy
    simp only [List.mem_singleton] at hy
    subst hy
    obtain ⟨r, hr, rfl⟩ := List.mem_map.mp hx
    exact (hb r hr).1
  · simp only [addImageBlob, List.map_append, List.map_cons, List.map_nil]
    rw [List.pairwise_append]
    refine ⟨hcr, by simp, ?_⟩
    intro x hx y hy
    simp only [List.mem_singleton] at hy
    subst hy
    obtain ⟨r, hr, rfl⟩ := List.mem_map.mp hx
    exact Nat.le_trans (hb r hr).2 ht
  · intro r hr
    simp only [addImageBlob, List.mem_append, List.mem_singleton] at hr
    rcases hr with hr | hr
    · exact ⟨Nat.lt_succ_of_lt (hb r hr).1, Nat.le_trans (hb r hr).2 ht⟩
    · subst hr
      exact ⟨Nat.lt_succ_self _, Nat.le_refl _⟩

theorem storeInv_delete {d : GalleryDB} {t : Nat} (h : StoreInv d t) (i : Nat) :
    StoreInv (deleteImageById d i) t := by
  obtain ⟨hid, hcr, hb⟩ := h
  have hsub : (d.records.filter (fun r => r.id != i)).Sublist d.records :=
    List.filter_sublist d.records
  refine ⟨?_, ?_, ?_⟩
  · exact List.Pairwise.sublist (hsub.map (fun r => r.id)) hid
  · exact List.Pairwise.sublist (hsub.map (fun r => r.created)) hcr
  · intro r hr
    exact hb r (hsub.mem hr)

theorem storeInv_clear {d : GalleryDB} {t : Nat} (_ : StoreInv d t) :
    StoreInv (clearAllImages d) t := by
  refine ⟨?_, ?_, ?_⟩
  · simp [clearAllImages]
  · simp [clearAllImages]
  · intro r hr
    simp [clearAllImages] at hr

theorem runOps_inv (ops : List StoreOp) :
    ∀ (d : GalleryDB) (t : Nat), StoreInv d t → validTimes t ops = true →
      ∃ t2, StoreInv (runOps d ops) t2 := by
  induction ops with
  | nil =>
      intro d t h _
      exact ⟨t, h⟩
  | cons op rest ih =>
      intro d t h hv
      cases op with
      | insert n b t2 =>
          simp only [validTimes, Bool.and_eq_true, decide_eq_true_eq] at hv
          exact ih _ t2 (storeInv_insert h hv.1 n b) hv.2
      | deleteById i =>
          exact ih _ t (storeInv_delete h i) hv
      | clearAll =>
          exact ih _ t (storeInv_clear h) hv

/-- Claim C9: across every operation sequence run from the empty store under
a non-decreasing `Date.now()` clock, the persisted ids are pairwise distinct
and the `created` timestamps are non-decreasing in insertion order. -/
theorem C9_store_invariants (ops : List StoreOp) (h : validTimes 0 ops = true) :
    ((runOps emptyDB ops).records.map (fun r => r.id)).Nodup ∧
    ((runOps emptyDB ops).records.map (fun r => r.created)).Pairwise (· ≤ ·) := by
  obtain ⟨t2, hinv⟩ := runOps_inv ops emptyDB 0 (storeInv_empty 0) h
  exact ⟨hinv.1.imp (fun hlt => Nat.ne_of_lt hlt), hinv.2.1⟩

/-- Witness for C9 on a concrete operation sequence with two inserts sharing
a timestamp, a delete and a clear. -/
theorem C9_store_invariants_witness :
    (validTimes 0 demoOps = true) ∧
    (((runOps emptyDB demoOps).records.map (fun r => r.id)).Nodup ∧
      ((runOps emptyDB demoOps).records.map (fun r => r.created)).Pairwise (· ≤ ·)) :=
  ⟨by decide, C9_store_invariants demoOps (by decide)⟩
